import Mathlib

/-
Verification development for the cudnn layer abstraction declared in
src/neural/cuda/layers.h (lczero::cudnn_backend).  The header declares the
class hierarchy, every data member with its type and initializer, and every
method signature; the method bodies live in a translation unit that is not
part of this snapshot, so evaluation semantics are modelled from the
specification where needed (each such definition is marked
"Modelled from the spec:").
-/

namespace LC0

/-- Element types the layer templates are instantiated at: the pipeline works
in 32-bit or 16-bit floating point (the template parameter DataType). -/
inductive Scalar where
  | float32
  | float16
  deriving DecidableEq, Repr

/-- The C++ types that occur in layers.h declarations, used to state
interface-level facts (parameter lists, data-member types). -/
inductive CppType where
  | intT
  | sizeT
  | boolT
  | voidT
  | voidPtr
  | ptr (s : Scalar)
  | cptr (s : Scalar)
  | baseLayerPtr
  | filterDesc
  | convDesc
  | convAlgo
  | tensorDesc
  | activationDesc
  | cudnnHandle
  | cublasHandle
  deriving DecidableEq, Repr

/-- The seven concrete layer kinds declared in layers.h. -/
inductive LayerKind where
  | conv
  | softMax
  | bn
  | fc
  | se
  | globalAvgPool
  | globalScale
  deriving DecidableEq, Repr

/-- Data members of BaseLayer (layers.h lines 49-54): the upstream pointer
input_ and the output shape ints C, H, W. -/
def baseFields : List CppType := [.baseLayerPtr, .intT, .intT, .intT]

/-- Data members declared by each derived class itself, in declaration order
(layers.h: ConvLayer 76-91, SoftMaxLayer 107, BNLayer 124-129, FCLayer
145-150, SELayer 173-179, GlobalAvgPoolLayer and GlobalScaleLayer none).
BNLayer's statistics are float regardless of the template argument. -/
def ownFields (dt : Scalar) : LayerKind → List CppType
  | .conv =>
      [.intT, .intT, .boolT, .boolT, .ptr dt, .ptr dt, .filterDesc, .convDesc,
        .convAlgo, .tensorDesc, .tensorDesc, .tensorDesc, .activationDesc]
  | .softMax => [.tensorDesc]
  | .bn => [.boolT, .ptr Scalar.float32, .ptr Scalar.float32]
  | .fc => [.boolT, .boolT, .boolT, .boolT, .ptr dt, .ptr dt]
  | .se => [.ptr dt, .ptr dt, .ptr dt, .ptr dt, .ptr dt, .intT, .boolT]
  | .globalAvgPool => []
  | .globalScale => []

/-- All data members of a layer object: the inherited BaseLayer members
followed by the class's own members. -/
def classFields (dt : Scalar) (k : LayerKind) : List CppType :=
  baseFields ++ ownFields dt k

/-- Parameter types of each class's Eval override.  Every class in layers.h
repeats the same signature: (int N, DataType* output, const DataType* input,
const DataType* input2, void* scratch, size_t scratch_size,
cudnnHandle_t cudnn, cublasHandle_t cublas). -/
def evalParams (dt : Scalar) : LayerKind → List CppType
  | .conv =>
      [.intT, .ptr dt, .cptr dt, .cptr dt, .voidPtr, .sizeT, .cudnnHandle,
        .cublasHandle]
  | .softMax =>
      [.intT, .ptr dt, .cptr dt, .cptr dt, .voidPtr, .sizeT, .cudnnHandle,
        .cublasHandle]
  | .bn =>
      [.intT, .ptr dt, .cptr dt, .cptr dt, .voidPtr, .sizeT, .cudnnHandle,
        .cublasHandle]
  | .fc =>
      [.intT, .ptr dt, .cptr dt, .cptr dt, .voidPtr, .sizeT, .cudnnHandle,
        .cublasHandle]
  | .se =>
      [.intT, .ptr dt, .cptr dt, .cptr dt, .voidPtr, .sizeT, .cudnnHandle,
        .cublasHandle]
  | .globalAvgPool =>
      [.intT, .ptr dt, .cptr dt, .cptr dt, .voidPtr, .sizeT, .cudnnHandle,
        .cublasHandle]
  | .globalScale =>
      [.intT, .ptr dt, .cptr dt, .cptr dt, .voidPtr, .sizeT, .cudnnHandle,
        .cublasHandle]

/-- Return type of each class's Eval override (void in every class). -/
def evalReturn : LayerKind → CppType
  | .conv => .voidT
  | .softMax => .voidT
  | .bn => .voidT
  | .fc => .voidT
  | .se => .voidT
  | .globalAvgPool => .voidT
  | .globalScale => .voidT

/-- The device compute context of the spec: the opaque handle bundle
(cudnnHandle_t, cublasHandle_t) supplied on every Eval call. -/
def contextHandleTypes : List CppType := [.cudnnHandle, .cublasHandle]

/-- Host-parameter types of each class's LoadWeights method, when it has one
(layers.h: ConvLayer line 70, BNLayer line 118, FCLayer line 139, SELayer
lines 165-166).  All host arrays are float* regardless of DataType;
SoftMaxLayer, GlobalAvgPoolLayer and GlobalScaleLayer declare none. -/
def loadWeightsParams : LayerKind → Option (List CppType)
  | .conv => some [.ptr Scalar.float32, .ptr Scalar.float32, .voidPtr]
  | .softMax => none
  | .bn => some [.ptr Scalar.float32, .ptr Scalar.float32]
  | .fc => some [.ptr Scalar.float32, .ptr Scalar.float32, .voidPtr]
  | .se =>
      some [.ptr Scalar.float32, .ptr Scalar.float32, .ptr Scalar.float32,
        .ptr Scalar.float32, .ptr Scalar.float32, .voidPtr]
  | .globalAvgPool => none
  | .globalScale => none

/-- Whether the class declares a destructor (layers.h: ConvLayer line 69,
BNLayer line 116, FCLayer line 137, SELayer line 163; the other classes
declare none). -/
def hasDestructor : LayerKind → Bool
  | .conv => true
  | .softMax => false
  | .bn => true
  | .fc => true
  | .se => true
  | .globalAvgPool => false
  | .globalScale => false

/-- True for device pointers to scalar data, the member type that holds
learned parameters. -/
def isScalarPtr : CppType → Bool
  | .ptr _ => true
  | .cptr _ => true
  | _ => false

/-- A device buffer of elements of scalar type s (address only; the element
type is tracked in the type). -/
structure DevPtr (s : Scalar) where
  addr : Nat
  deriving DecidableEq, Repr

/-- The state BaseLayer stores for sizing (layers.h lines 34-55): the output
shape C, H, W fixed at construction, plus sizeof(DataType) of the
instantiation. -/
structure BaseLayer where
  C : Nat
  H : Nat
  W : Nat
  elementSize : Nat
  deriving DecidableEq, Repr

/-- BaseLayer::GetOutputSize (layers.h line 42):
sizeof(DataType) * N * C * H * W, computed left to right in the unsigned
64-bit size type, hence reduced modulo 2^64. -/
def BaseLayer.GetOutputSize (l : BaseLayer) (N : Nat) : Nat :=
  l.elementSize * N * l.C * l.H * l.W % 2 ^ 64

/-- Own data members of ConvLayer (layers.h lines 76-82): the const ints and
bools set from the constructor arguments, and the two parameter pointers,
which the header initializes to nullptr (modelled as Option, nullptr = none).
The cudnn descriptor members (lines 84-91) are opaque backend handles and are
not part of the parameter state. -/
structure ConvLayerState (dt : Scalar) where
  c_input_ : Nat
  filter_size_ : Nat
  use_relu_ : Bool
  use_bias_ : Bool
  biases : Option (DevPtr dt)
  weights : Option (DevPtr dt)
  deriving DecidableEq, Repr

/-- ConvLayer constructor (layers.h lines 67-68): takes the upstream layer,
the output shape C H W, the filter size, the input channel count and the two
fusion flags; the parameter pointers start null per the header's member
initializers (lines 81-82). -/
def ConvLayer.construct (dt : Scalar) (ip : BaseLayer) (C H W size Cin : Nat)
    (relu bias : Bool) : ConvLayerState dt :=
  ⟨Cin, size, relu, bias, none, none⟩

/-- Modelled from the spec: ConvLayer::LoadWeights (body in layers.cc, absent
from this snapshot) transfers the filter, and the bias when the layer was
configured with one, to device memory. -/
def ConvLayer.loadWeights (dt : Scalar) (l : ConvLayerState dt)
    (pfilter pBias : Nat) : ConvLayerState dt :=
  ⟨l.c_input_, l.filter_size_, l.use_relu_, l.use_bias_,
    if l.use_bias_ then some ⟨pBias⟩ else l.biases, some ⟨pfilter⟩⟩

/-- Own data members of BNLayer (layers.h lines 123-129): the relu flag and
the two statistics pointers, declared float* irrespective of DataType and
initialized to nullptr. -/
structure BNLayerState (dt : Scalar) where
  use_relu_ : Bool
  means_ : Option (DevPtr Scalar.float32)
  variances_ : Option (DevPtr Scalar.float32)
  deriving DecidableEq, Repr

/-- BNLayer constructor (layers.h line 115): takes the upstream layer and the
relu flag; the statistics pointers start null per the header's member
initializers (lines 128-129). -/
def BNLayer.construct (dt : Scalar) (ip : BaseLayer) (relu : Bool) :
    BNLayerState dt :=
  ⟨relu, none, none⟩

/-- Modelled from the spec: BNLayer::LoadWeights (body in layers.cc, absent
from this snapshot) copies the float host arrays to device; the stored
buffers are typed at Scalar.float32 for every instantiation, mirroring the
float* members of the header. -/
def BNLayer.loadWeights (dt : Scalar) (l : BNLayerState dt)
    (cpuMeans cpuVar : Nat) : BNLayerState dt :=
  ⟨l.use_relu_, some ⟨cpuMeans⟩, some ⟨cpuVar⟩⟩

/-- Own data members of FCLayer (layers.h lines 144-150): four independent
const bools and the two parameter pointers, initialized to nullptr. -/
structure FCLayerState (dt : Scalar) where
  C : Nat
  H : Nat
  W : Nat
  use_bias_ : Bool
  use_relu_ : Bool
  use_tanh_ : Bool
  use_sigmoid_ : Bool
  weights_ : Option (DevPtr dt)
  biases_ : Option (DevPtr dt)
  deriving DecidableEq, Repr

/-- FCLayer constructor (layers.h lines 135-136): takes the upstream layer,
the output shape, and four independent Bool selectors relu, bias, tanh,
sigmoid (the last two defaulted to false).  The initializer list is in
layers.cc, absent from this snapshot; each flag is modelled as stored
directly, as the matching field names dictate.  The pointer members start
null per the header initializers (lines 149-150). -/
def FCLayer.construct (dt : Scalar) (ip : BaseLayer) (C H W : Nat)
    (relu bias tanh sigmoid : Bool) : FCLayerState dt :=
  ⟨C, H, W, bias, relu, tanh, sigmoid, none, none⟩

/-- Number of activation selectors active in an FCLayer instance. -/
def FCLayerState.activationsActive {dt : Scalar} (l : FCLayerState dt) : Nat :=
  l.use_relu_.toNat + l.use_tanh_.toNat + l.use_sigmoid_.toNat

/-- Modelled from the spec: FCLayer::LoadWeights (body in layers.cc, absent
from this snapshot) transfers the weight matrix, and the bias vector when
configured, to device memory. -/
def FCLayer.loadWeights (dt : Scalar) (l : FCLayerState dt)
    (cpuWeight cpuBias : Nat) : FCLayerState dt :=
  ⟨l.C, l.H, l.W, l.use_bias_, l.use_relu_, l.use_tanh_, l.use_sigmoid_,
    some ⟨cpuWeight⟩, if l.use_bias_ then some ⟨cpuBias⟩ else l.biases_⟩

/-- Own data members of SELayer (layers.h lines 172-179): five parameter
pointers initialized to nullptr, the FC1 width, and the
previous-layer-bias flag. -/
structure SELayerState (dt : Scalar) where
  w1_ : Option (DevPtr dt)
  b1_ : Option (DevPtr dt)
  w2_ : Option (DevPtr dt)
  b2_ : Option (DevPtr dt)
  bPrev_ : Option (DevPtr dt)
  numFc1Out_ : Nat
  addPrevLayerBias_ : Bool
  deriving DecidableEq, Repr

/-- SELayer constructor (layers.h lines 161-162): takes the upstream layer,
the FC1 width and the previous-layer-bias flag; all five parameter pointers
start null per the header initializers (lines 173-177). -/
def SELayer.construct (dt : Scalar) (ip : BaseLayer) (numFc1Out : Nat)
    (addPrevLayerBias : Bool) : SELayerState dt :=
  ⟨none, none, none, none, none, numFc1Out, addPrevLayerBias⟩

/-- Modelled from the spec: SELayer::LoadWeights (body in layers.cc, absent
from this snapshot) transfers the two FC stages' weights and biases, and the
previous-layer bias when configured, to device memory. -/
def SELayer.loadWeights (dt : Scalar) (l : SELayerState dt)
    (w1 b1 w2 b2 prevLayerBias : Nat) : SELayerState dt :=
  ⟨some ⟨w1⟩, some ⟨b1⟩, some ⟨w2⟩, some ⟨b2⟩,
    if l.addPrevLayerBias_ then some ⟨prevLayerBias⟩ else l.bPrev_,
    l.numFc1Out_, l.addPrevLayerBias_⟩

/-- ConvLayer constructor parameter types (layers.h lines 67-68):
(BaseLayer* ip, int C, int H, int W, int size, int Cin, bool relu,
bool bias). -/
def convCtorParams : List CppType :=
  [.baseLayerPtr, .intT, .intT, .intT, .intT, .intT, .boolT, .boolT]

/-- Stated from the claim's words, for comparison with convCtorParams: the
declared output shape, the input channel count, the filter size and the two
flags — and nothing else, in particular no upstream-layer parameter. -/
def claimConvCtorParams : List CppType :=
  [.intT, .intT, .intT, .intT, .intT, .boolT, .boolT]

/-- The cached convolution-algorithm slot of a ConvLayer instance
(layers.h line 86, member conv_algo_), unset until selection. -/
structure ConvAlgoState where
  conv_algo_ : Option Nat
  deriving DecidableEq, Repr

/-- Modelled from the spec: the convolution algorithm is selected once (at
load or first use, by querying the backend, here abstracted as pick) and the
single choice is cached in the instance; a later call reuses the cached
value.  The selecting code is in layers.cc, absent from this snapshot. -/
def ConvLayer.selectAlgo (pick : Unit → Nat) (s : ConvAlgoState) :
    ConvAlgoState :=
  match s.conv_algo_ with
  | some _ => s
  | none => ⟨some (pick ())⟩

/-- A value tensor in NCHW layout, indexed by batch element, channel, row,
column; values taken in an exact field standing for the floating-point data. -/
abbrev Tensor4 : Type := Nat → Nat → Nat → Nat → ℚ

/-- A value tensor in NC layout (one value per channel per batch element). -/
abbrev Tensor2 : Type := Nat → Nat → ℚ

/-- Modelled from the spec: the rectifying activation. -/
def relu (x : ℚ) : ℚ := max x 0

/-- Elementwise rectifying activation on an NC tensor. -/
def reluMap2 (x : Tensor2) : Tensor2 := fun n c => relu (x n c)

/-- Elementwise rectifying activation on an NCHW tensor. -/
def reluMap4 (x : Tensor4) : Tensor4 := fun n c h w => relu (x n c h w)

/-- Modelled from the spec: add a per-channel previous-layer bias to an NCHW
tensor. -/
def addChannelBias (b : Nat → ℚ) (x : Tensor4) : Tensor4 :=
  fun n c h w => x n c h w + b c

/-- Modelled from the spec: global average pooling over the spatial
dimensions, one value per channel per batch element. -/
def globalAvgPool (H W : Nat) (x : Tensor4) : Tensor2 :=
  fun n c =>
    (∑ a ∈ Finset.range H, ∑ b ∈ Finset.range W, x n c a b) /
      ((H * W : ℕ) : ℚ)

/-- Modelled from the spec: a fully-connected transform with Cin input
channels, weight matrix wt (output index first) and bias bs. -/
def fcEval (Cin : Nat) (wt : Nat → Nat → ℚ) (bs : Nat → ℚ) (x : Tensor2) :
    Tensor2 :=
  fun n o => (∑ i ∈ Finset.range Cin, wt o i * x n i) + bs o

/-- Modelled from the spec: apply a per-(N,C) scale/shift pair to an NCHW
tensor, broadcast across the spatial extent.  The pair tensor sb has 2C
entries per batch element: the scale for channel c at index c and the shift
at index c + C. -/
def applyScaleShift (C : Nat) (sb : Tensor2) (x : Tensor4) : Tensor4 :=
  fun n c h w => sb n c * x n c h w + sb n (c + C)

/-- Elementwise sum of two NCHW tensors. -/
def addTensor4 (x y : Tensor4) : Tensor4 :=
  fun n c h w => x n c h w + y n c h w

/-- Modelled from the spec: SELayer::Eval (body in layers.cc, absent from
this snapshot), written as one computation following the header comment at
layers.h lines 153-155: (optional bias add +) global avg -> FC1 -> FC2 ->
global scale -> add skip connection -> RELU.  C is the channel count, H W
the spatial extent, F the FC1 width; input2 is the skip connection. -/
def SELayer.Eval (C H W F : Nat) (w1 : Nat → Nat → ℚ) (b1 : Nat → ℚ)
    (w2 : Nat → Nat → ℚ) (b2 : Nat → ℚ) (bPrev : Option (Nat → ℚ))
    (input input2 : Tensor4) : Tensor4 :=
  let x : Tensor4 := fun n c h w =>
    match bPrev with
    | some bp => input n c h w + bp c
    | none => input n c h w
  let pooled : Tensor2 := fun n c =>
    (∑ a ∈ Finset.range H, ∑ b ∈ Finset.range W, x n c a b) /
      ((H * W : ℕ) : ℚ)
  let y1 : Tensor2 := fun n o =>
    max ((∑ i ∈ Finset.range C, w1 o i * pooled n i) + b1 o) 0
  let y2 : Tensor2 := fun n o =>
    (∑ i ∈ Finset.range F, w2 o i * y1 n i) + b2 o
  fun n c h w =>
    max (y2 n c * x n c h w + y2 n (c + C) + input2 n c h w) 0

/-- Modelled from the spec: GlobalScaleLayer::Eval (body in layers.cc,
absent from this snapshot): the secondary input carries a per-(N,C)
scale/shift pair broadcast across the spatial extent of the primary input,
the primary tensor is added back as a residual in the same pass, and no
activation is applied. -/
def GlobalScaleLayer.Eval (C : Nat) (input : Tensor4) (input2 : Tensor2) :
    Tensor4 :=
  fun n c h w =>
    input2 n c * input n c h w + input2 n (c + C) + input n c h w

/-- Modelled from the spec: GlobalAvgPoolLayer::Eval (body in layers.cc,
absent from this snapshot) averages each channel of each batch element over
the H x W spatial positions (header comment, layers.h lines 185-187). -/
def GlobalAvgPoolLayer.Eval (H W : Nat) (input : Tensor4) : Tensor2 :=
  fun n c =>
    (∑ a ∈ Finset.range H, ∑ b ∈ Finset.range W, input n c a b) /
      ((H * W : ℕ) : ℚ)

/-- Modelled from the spec: the GlobalAvgPoolLayer constructor (body in
layers.cc, absent from this snapshot) takes the channel count from the
upstream layer and fixes the declared spatial output shape to H = W = 1. -/
def GlobalAvgPoolLayer.construct (ip : BaseLayer) : BaseLayer :=
  ⟨ip.C, 1, 1, ip.elementSize⟩

/-- The 2 x 2 spatial plane holding the values 1, 2, 3, 4 (row-major), the
concrete input named by the spec's testable property. -/
def plane1234 : Tensor4 :=
  fun _ _ a b => (1 : ℚ) + 2 * (a : ℚ) + (b : ℚ)

/-- Helper: averaging a tensor that is uniform over the pooled window gives
back the constant. -/
theorem globalAvgPool_uniform (H W : Nat) (hH : 0 < H) (hW : 0 < W)
    (x : Tensor4) (v : ℚ)
    (huni : ∀ n c a b, a < H → b < W → x n c a b = v) (n c : Nat) :
    globalAvgPool H W x n c = v := by
  unfold globalAvgPool
  have hrow : ∀ a ∈ Finset.range H,
      (∑ b ∈ Finset.range W, x n c a b) = (W : ℚ) * v := by
    intro a ha
    have hcell : ∀ b ∈ Finset.range W, x n c a b = v := fun b hb =>
      huni n c a b (Finset.mem_range.mp ha) (Finset.mem_range.mp hb)
    rw [Finset.sum_congr rfl hcell, Finset.sum_const, Finset.card_range,
      nsmul_eq_mul]
  rw [Finset.sum_congr rfl hrow, Finset.sum_const, Finset.card_range,
    nsmul_eq_mul]
  have hH0 : (H : ℚ) ≠ 0 := Nat.cast_ne_zero.mpr hH.ne'
  have hW0 : (W : ℚ) ≠ 0 := Nat.cast_ne_zero.mpr hW.ne'
  push_cast
  field_simp
  ring

/-- Claim C1 (counterexample): GetOutputSize does not always return
elementSize * N * C * H * W exactly — the product is computed in the 64-bit
size type, so with elementSize 4 and C = H = W = N = 2^30 (all valid int
values, N >= 1) the product 2^122 wraps to 0. -/
theorem getOutputSize_overflow_counterexample :
    BaseLayer.GetOutputSize ⟨2 ^ 30, 2 ^ 30, 2 ^ 30, 4⟩ (2 ^ 30) = 0 ∧
      (4 * 2 ^ 30 * 2 ^ 30 * 2 ^ 30 * 2 ^ 30 : ℕ) ≠ 0 ∧ 1 ≤ (2 ^ 30 : ℕ) := by
  refine ⟨?_, by decide, by decide⟩
  rfl

/-- Claim C1 (amended): for every layer's stored shape (C,H,W) and every
batch size N >= 1 such that elementSize * N * C * H * W is below 2^64 (the
modulus of the size type the product is computed in), GetOutputSize(N)
returns exactly elementSize * N * C * H * W bytes; in general it returns
that product reduced modulo 2^64. -/
theorem getOutputSize_exact_when_fits (l : BaseLayer) (N : Nat)
    (h1 : 1 ≤ N) (h2 : l.elementSize * N * l.C * l.H * l.W < 2 ^ 64) :
    l.GetOutputSize N = l.elementSize * N * l.C * l.H * l.W :=
  Nat.mod_eq_of_lt h2

/-- Witness for getOutputSize_exact_when_fits at a concrete layer
(C=64, H=W=8, 4-byte elements) and batch size 16. -/
theorem getOutputSize_exact_witness :
    BaseLayer.GetOutputSize ⟨64, 8, 8, 4⟩ 16 = 4 * 16 * 64 * 8 * 8 :=
  getOutputSize_exact_when_fits ⟨64, 8, 8, 4⟩ 16 (by decide) (by decide)

/-- Claim C2: SELayer evaluation equals the claimed sequence applied in
order — optional previous-layer bias add, global average pooling, first
fully-connected stage with rectifying activation, second fully-connected
stage producing per-channel scale and shift, scale/shift applied to the
pre-pooling primary tensor, skip-connection add, final rectifying
activation. -/
theorem se_eval_is_claimed_pipeline (C H W F : Nat) (w1 : Nat → Nat → ℚ)
    (b1 : Nat → ℚ) (w2 : Nat → Nat → ℚ) (b2 : Nat → ℚ)
    (bPrev : Option (Nat → ℚ)) (input input2 : Tensor4) :
    SELayer.Eval C H W F w1 b1 w2 b2 bPrev input input2 =
      (fun x : Tensor4 =>
        reluMap4 (addTensor4
          (applyScaleShift C
            (fcEval F w2 b2 (reluMap2 (fcEval C w1 b1 (globalAvgPool H W x))))
            x)
          input2))
      (match bPrev with
        | some bp => addChannelBias bp input
        | none => input) := by
  cases bPrev <;> rfl

/-- Claim C3: GlobalScaleLayer evaluation broadcasts the per-(N,C)
scale/shift pair of the secondary input (scale at channel index c, shift at
c + C, i.e. an (N, 2C) layout) across the spatial extent of the primary
tensor and adds the primary tensor back as a residual in the same pass, with
no activation: outputs can be negative, as the concrete evaluation in the
second conjunct shows. -/
theorem global_scale_eval_scale_shift_residual (C : Nat) (input : Tensor4)
    (input2 : Tensor2) :
    GlobalScaleLayer.Eval C input input2 =
      addTensor4 (applyScaleShift C input2 input) input ∧
    GlobalScaleLayer.Eval 1 (fun _ _ _ _ => (-1 : ℚ)) (fun _ _ => 0)
      0 0 0 0 = -1 := by
  refine ⟨rfl, ?_⟩
  norm_num [GlobalScaleLayer.Eval]

/-- Claim C4 (counterexample): the activation selectors of FCLayer are not
mutually exclusive — the construction interface takes four independent bools
(layers.h lines 135-136) and permits an instance with relu, tanh and sigmoid
all active. -/
theorem fc_activation_flags_not_mutually_exclusive :
    ¬ FCLayerState.activationsActive
        (FCLayer.construct Scalar.float32 ⟨8, 8, 8, 4⟩ 128 1 1
          true false true true) ≤ 1 := by
  decide

/-- Claim C4 (amended): FCLayer's relu, tanh and sigmoid selectors are
independent booleans stored exactly as passed; the construction interface
does not enforce mutual exclusivity, so at most one selector is active in an
instance precisely when the caller passed at most one true flag (exclusivity
is a caller obligation, not an enforced invariant). -/
theorem fc_activation_flags_stored_independently (dt : Scalar)
    (ip : BaseLayer) (C H W : Nat) (relu bias tanh sigmoid : Bool) :
    (FCLayer.construct dt ip C H W relu bias tanh sigmoid).use_relu_ = relu ∧
    (FCLayer.construct dt ip C H W relu bias tanh sigmoid).use_tanh_ = tanh ∧
    (FCLayer.construct dt ip C H W relu bias tanh
      sigmoid).use_sigmoid_ = sigmoid ∧
    (FCLayerState.activationsActive
        (FCLayer.construct dt ip C H W relu bias tanh sigmoid) ≤ 1 ↔
      relu.toNat + tanh.toNat + sigmoid.toNat ≤ 1) :=
  ⟨rfl, rfl, rfl, Iff.rfl⟩

/-- Claim C5: BNLayer's per-channel mean and variance members are typed at
full 32-bit float precision for both pipeline element types (layers.h lines
126-129 declare them float* irrespective of DataType), the LoadWeights
interface accepts 32-bit float host arrays for both instantiations, and
after loading, the stored buffers are still the Scalar.float32-typed
buffers. -/
theorem bn_stats_full_precision (dt : Scalar) (l : BNLayerState dt)
    (m v : Nat) :
    ownFields dt .bn =
      [.boolT, .ptr Scalar.float32, .ptr Scalar.float32] ∧
    loadWeightsParams .bn =
      some [.ptr Scalar.float32, .ptr Scalar.float32] ∧
    (BNLayer.loadWeights dt l m v).means_ =
      some (⟨m⟩ : DevPtr Scalar.float32) ∧
    (BNLayer.loadWeights dt l m v).variances_ =
      some (⟨v⟩ : DevPtr Scalar.float32) := by
  cases dt <;> exact ⟨rfl, rfl, rfl, rfl⟩

/-- Claim C6: GlobalAvgPoolLayer maps each (N,C,H,W) input to one value per
channel per batch element, the arithmetic mean over the H x W positions: the
declared output shape has H = W = 1, a uniform input yields that constant,
and the 2 x 2 plane holding 1, 2, 3, 4 pools to 5/2. -/
theorem global_avg_pool_correct (ip : BaseLayer) (H W : Nat)
    (hH : 0 < H) (hW : 0 < W) (x : Tensor4) (v : ℚ)
    (huni : ∀ n c a b, a < H → b < W → x n c a b = v) :
    (GlobalAvgPoolLayer.construct ip).H = 1 ∧
    (GlobalAvgPoolLayer.construct ip).W = 1 ∧
    (GlobalAvgPoolLayer.construct ip).C = ip.C ∧
    (∀ n c, GlobalAvgPoolLayer.Eval H W x n c = v) ∧
    GlobalAvgPoolLayer.Eval 2 2 plane1234 0 0 = 5 / 2 := by
  refine ⟨rfl, rfl, rfl, ?_, ?_⟩
  · intro n c
    exact globalAvgPool_uniform H W hH hW x v huni n c
  · norm_num [GlobalAvgPoolLayer.Eval, plane1234, Finset.sum_range_succ]

/-- Witness for global_avg_pool_correct at H = W = 2 with the constant
input 7. -/
theorem global_avg_pool_correct_witness :
    (GlobalAvgPoolLayer.construct ⟨64, 8, 8, 4⟩).H = 1 ∧
    (GlobalAvgPoolLayer.construct ⟨64, 8, 8, 4⟩).W = 1 ∧
    (GlobalAvgPoolLayer.construct ⟨64, 8, 8, 4⟩).C = 64 ∧
    (∀ n c, GlobalAvgPoolLayer.Eval 2 2 (fun _ _ _ _ => (7 : ℚ)) n c = 7) ∧
    GlobalAvgPoolLayer.Eval 2 2 plane1234 0 0 = 5 / 2 :=
  global_avg_pool_correct ⟨64, 8, 8, 4⟩ 2 2 (by decide) (by decide)
    (fun _ _ _ _ => (7 : ℚ)) 7 (fun _ _ _ _ _ _ => rfl)

/-- Claim C7: every layer's Eval override takes exactly a batch size, an
output buffer, a primary input buffer, a secondary input buffer (optional:
it may be null), a scratch buffer with its capacity, and the device compute
context — the (cudnn, cublas) handle bundle — and returns void; no layer
class stores either context handle in a data member. -/
theorem eval_signature_uniform_context_not_stored (dt : Scalar)
    (k : LayerKind) :
    evalParams dt k =
      [.intT, .ptr dt, .cptr dt, .cptr dt, .voidPtr, .sizeT] ++
        contextHandleTypes ∧
    evalReturn k = .voidT ∧
    ∀ t ∈ contextHandleTypes, t ∉ classFields dt k := by
  cases dt <;> cases k <;> exact ⟨rfl, rfl, by decide⟩

/-- Claim C8 (counterexample): the ConvLayer constructor does not take
exactly the declared output shape, input channel count, filter size and two
flags — it additionally takes the upstream layer pointer (layers.h lines
67-68), so its parameter list has eight entries, not seven. -/
theorem conv_ctor_takes_upstream_counterexample :
    convCtorParams ≠ claimConvCtorParams ∧
    CppType.baseLayerPtr ∈ convCtorParams ∧
    CppType.baseLayerPtr ∉ claimConvCtorParams ∧
    convCtorParams.length = 8 ∧ claimConvCtorParams.length = 7 := by
  decide

/-- Claim C8 (amended): ConvLayer construction takes exactly the upstream
layer pointer followed by the declared output shape, the filter size, the
input channel count, and the fused-activation and fused-bias flags; the
instance stores exactly one cached convolution-algorithm slot, the selection
is made once (when the slot is empty) and a repeated selection leaves the
cached choice unchanged. -/
theorem conv_ctor_params_and_algo_cached (dt : Scalar)
    (pick : Unit → Nat) (s : ConvAlgoState) :
    convCtorParams = [.baseLayerPtr] ++ claimConvCtorParams ∧
    (ownFields dt .conv).count .convAlgo = 1 ∧
    (ConvLayer.selectAlgo pick s).conv_algo_.isSome = true ∧
    ConvLayer.selectAlgo pick (ConvLayer.selectAlgo pick s) =
      ConvLayer.selectAlgo pick s := by
  refine ⟨rfl, by cases dt <;> decide, ?_, ?_⟩
  · cases s with
    | mk o => cases o <;> rfl
  · cases s with
    | mk o => cases o <;> rfl

/-- Claim C9: SoftMaxLayer, GlobalAvgPoolLayer and GlobalScaleLayer declare
no LoadWeights method, no destructor, and no device-pointer data member (so
they own no parameter buffers): their constructed-to-loaded transition is
trivial. -/
theorem stateless_layers_trivial_lifecycle (dt : Scalar) :
    (loadWeightsParams .softMax = none ∧ hasDestructor .softMax = false ∧
      (classFields dt .softMax).filter isScalarPtr = []) ∧
    (loadWeightsParams .globalAvgPool = none ∧
      hasDestructor .globalAvgPool = false ∧
      (classFields dt .globalAvgPool).filter isScalarPtr = []) ∧
    (loadWeightsParams .globalScale = none ∧
      hasDestructor .globalScale = false ∧
      (classFields dt .globalScale).filter isScalarPtr = []) := by
  cases dt <;> exact ⟨⟨rfl, rfl, rfl⟩, ⟨rfl, rfl, rfl⟩, ⟨rfl, rfl, rfl⟩⟩

/-- Claim C10: in the four parameter-owning layer kinds every parameter
pointer is null right after construction (the header's member initializers,
layers.h lines 81-82, 128-129, 149-150, 173-177), and loading makes the
principal weight pointer non-null, so the loaded state is distinguishable
from the constructed state. -/
theorem param_pointers_null_at_construction (dt : Scalar) (ip : BaseLayer)
    (C H W size Cin numFc1Out : Nat)
    (relu bias tanh sigmoid apb : Bool)
    (pfilter pBias m v cpuWeight cpuBias w1 b1 w2 b2 pb : Nat) :
    (ConvLayer.construct dt ip C H W size Cin relu bias).weights = none ∧
    (ConvLayer.construct dt ip C H W size Cin relu bias).biases = none ∧
    (BNLayer.construct dt ip relu).means_ = none ∧
    (BNLayer.construct dt ip relu).variances_ = none ∧
    (FCLayer.construct dt ip C H W relu bias tanh sigmoid).weights_ =
      none ∧
    (FCLayer.construct dt ip C H W relu bias tanh sigmoid).biases_ = none ∧
    (SELayer.construct dt ip numFc1Out apb).w1_ = none ∧
    (SELayer.construct dt ip numFc1Out apb).b1_ = none ∧
    (SELayer.construct dt ip numFc1Out apb).w2_ = none ∧
    (SELayer.construct dt ip numFc1Out apb).b2_ = none ∧
    (SELayer.construct dt ip numFc1Out apb).bPrev_ = none ∧
    (ConvLayer.loadWeights dt
        (ConvLayer.construct dt ip C H W size Cin relu bias)
        pfilter pBias).weights ≠ none ∧
    (BNLayer.loadWeights dt (BNLayer.construct dt ip relu) m v).means_ ≠
      none ∧
    (FCLayer.loadWeights dt
        (FCLayer.construct dt ip C H W relu bias tanh sigmoid)
        cpuWeight cpuBias).weights_ ≠ none ∧
    (SELayer.loadWeights dt (SELayer.construct dt ip numFc1Out apb)
        w1 b1 w2 b2 pb).w1_ ≠ none :=
  ⟨rfl, rfl, rfl, rfl, rfl, rfl, rfl, rfl, rfl, rfl, rfl,
    Option.some_ne_none _, Option.some_ne_none _, Option.some_ne_none _,
    Option.some_ne_none _⟩

end LC0
